import Mathlib

/-!
# Verification of `pychemqt/tools/UI_Tables.py`

Shallow embedding of the computational (non-GUI) logic of the module
`tools/UI_Tables.py` of pychemqt: method selection from preferences,
state-point validation (`calcPoint`), isoline/melting/sublimation data
generation (`calculatePlot`), property selection (`get_propiedades`),
plot-data persistence (`PlotMEoS._getData` / `_saveData`), table
serialization (`TablaMEoS.writeToJSON` / `readFromJSON`), the point
dialog state machine (`AddPoint.update` / `reset`) and the plotting of
phase-change lines (`plot2D3D`).

Numeric values computed by the external thermodynamic engine are
modelled with `ℚ`; the engine itself (fluid-state construction,
melting/sublimation pressure correlations) appears as opaque function
parameters, exactly as the module only calls into it.
-/

set_option autoImplicit false

namespace UITables

/-! ## Preferences and method selection

`getMethod` (UI_Tables.py lines 124-136) and `getClassFluid`
(lines 98-121) read the boolean preferences `coolprop` and `refprop`
from the `MEOS` section of the preferences file. -/

/-- The two boolean preferences of the `MEOS` section that decide the
calculation backend. -/
structure Prefs where
  coolprop : Bool
  refprop : Bool
  deriving DecidableEq, Repr

/-- Embedding of `getMethod` (lines 124-136): name of the thermo method
selected by the preferences. -/
def getMethod (pref : Prefs) : String :=
  if pref.coolprop && pref.refprop then "REFPROP"
  else if pref.coolprop then "COOLPROP"
  else "MEOS"

/-- The base fluid instance returned by `getClassFluid`: a
`refProp.RefProp` with compound ids, a `coolProp.CoolProp` with
compound ids, or an instance of the `mEoS` subclass at the configured
index. -/
inductive FluidInstance where
  | refprop (id : Nat)
  | coolprop (id : Nat)
  | meos (fluidIndex : Nat)
  deriving DecidableEq, Repr

/-- Embedding of `getClassFluid` (lines 98-121).  `mEoSId i` stands for
`mEoS.__all__[i].id` and `fluidIndex` for `conf.getint("MEoS", "fluid")`. -/
def getClassFluid (pref : Prefs) (mEoSId : Nat → Nat) (fluidIndex : Nat) :
    FluidInstance :=
  if pref.coolprop && pref.refprop then .refprop (mEoSId fluidIndex)
  else if pref.coolprop then .coolprop (mEoSId fluidIndex)
  else .meos fluidIndex

/-! ## `get_points` (lines 5034-5047) -/

/-- Embedding of `get_points`: the number of points per plotted line,
from the integer preference `definition`. -/
def get_points (definition : Int) : Nat :=
  if definition = 1 then 10
  else if definition = 2 then 25
  else if definition = 3 then 50
  else if definition = 4 then 100
  else 5

/-! ## `get_propiedades` (lines 2641-2664)

The external list `ThermoAdvanced.properties()` is a list of
(name, key, unit) triples; the configuration provides the index list
`propertiesOrder` and the boolean list `properties`, iterated in
parallel by `zip`. -/

/-- One entry of `ThermoAdvanced.properties()`: a (name, key, unit)
triple.  The unit class is modelled by an identifier. -/
structure PropertyEntry where
  name : String
  key : String
  unit : Nat
  deriving DecidableEq, Repr

instance : Inhabited PropertyEntry := ⟨⟨"", "", 0⟩⟩

/-- Embedding of `get_propiedades` (lines 2641-2664): walk
`zip(order, booleanos)` and, for each pair whose boolean is true, append
name, key and unit of `properties()[indice]` to the three result lists.
Python raises `IndexError` on an out-of-range index; the embedding
totalizes with `getD` and the theorems carry the in-range hypothesis. -/
def get_propiedades (props : List PropertyEntry) :
    List Nat → List Bool → List String × List String × List Nat
  | indice :: order, b :: booleanos =>
    let rest := get_propiedades props order booleanos
    if b then
      ((props.getD indice default).name :: rest.1,
       (props.getD indice default).key :: rest.2.1,
       (props.getD indice default).unit :: rest.2.2)
    else rest
  | _, [] => ([], [], [])
  | [], _ => ([], [], [])

/-- The entries selected by `get_propiedades`: the triples at the
indices of `order` whose positionally paired flag in `booleanos` is
true, in the order of `order`. -/
def selectedEntries (props : List PropertyEntry) (order : List Nat)
    (booleanos : List Bool) : List PropertyEntry :=
  ((order.zip booleanos).filter (fun p => p.2)).map
    (fun p => props.getD p.1 default)

/-! ## The fluid model and `calcPoint` (lines 5257-5301)

`calcPoint` validates a requested state point against the P-T range of
the selected equation.  The external engine appears as opaque data: the
equation limit dictionaries, the saturation-pressure call
`fluid(T=Tmin, x=0).P`, the melting correlation `_melting` /
`_Melting_Pressure`, and the state constructor `fluid._new(**kwargs)`. -/

/-- Range data of one entry of `fluid.eq` for an `mEoS` class:
`Tmin`, `Tmax` and `Pmax` (the latter in kPa; the code multiplies it
by 1000). -/
structure EqData where
  Tmin : ℚ
  Tmax : ℚ
  Pmax : ℚ
  deriving DecidableEq, Repr

/-- The `fluid.eq` dict of a CoolProp fluid: explicit `Tmin`, `Tmax`,
`Pmin`, `Pmax`. -/
structure CoolEqData where
  Tmin : ℚ
  Tmax : ℚ
  Pmin : ℚ
  Pmax : ℚ
  deriving DecidableEq, Repr

/-- Temperature range of the melting (or sublimation) correlation
dictionary (`fluid._melting` / `fluid._sublimation`). -/
structure MeltingData where
  Tmin : ℚ
  Tmax : ℚ
  deriving DecidableEq, Repr

/-- The state object built by the external fluid-state constructor:
a status flag, a message and property accessors (only those consulted
by this module's logic are modelled). -/
structure FluidState where
  status : Int
  msg : String
  T : ℚ
  P : ℚ
  rho : ℚ
  deriving DecidableEq, Repr

/-- The keyword arguments handed to `calcPoint` / `fluid._new`.  Only
`T` and `P` are inspected by `calcPoint` itself; everything else
(quality, density, solver hints, the `eq`/`visco`/`thermal` options
merged in from the configuration) is passed through opaquely. -/
structure Kwargs where
  T : Option ℚ
  P : Option ℚ
  rest : List (String × ℚ)
  deriving DecidableEq, Repr

/-- The external fluid object, as consumed by this module: equation
range data, the saturated-liquid pressure `fluid(T=t, x=0).P`, the
melting and sublimation correlations, and the state constructor
`_new`.  The computed state is an instance of the same class, so the
code's accesses `fluido._melting` / `fluido._Melting_Pressure` resolve
to the same class-level data modelled here on the fluid. -/
structure Fluid where
  eqMEoS : Nat → EqData
  eqCool : CoolEqData
  satPmin : ℚ → ℚ
  melting : Option MeltingData
  meltingPressure : ℚ → ℚ
  sublimation : Option MeltingData
  sublimationPressure : ℚ → ℚ
  new : Kwargs → FluidState

/-- Result of `calcPoint`: the constructed state object, an explicit
`return None`, or the `NameError` raised when the `REFPROP` branch
(line 5279, `pass`) leaves the four range variables unassigned and a
later line reads them. -/
inductive CalcResult where
  | state (fluido : FluidState)
  | none
  | nameError
  deriving DecidableEq, Repr

/-- `True` when an optional supplied value lies outside `[lo, hi]`
(the `if "T" in kwargs: if kwargs["T"] < Tmin or ...` pattern). -/
def suppliedOut (v : Option ℚ) (lo hi : ℚ) : Bool :=
  match v with
  | some t => decide (t < lo) || decide (t > hi)
  | none => false

/-- The common tail of `calcPoint` (lines 5281-5301), once the four
range variables are assigned: the supplied-`T` check, the supplied-`P`
check, the state construction, the status check, the melting-pressure
cap on `Pmax` (only under `MEOS`) and the final range check on the
computed state. -/
def calcPointChecked (pref : Prefs) (fluid : Fluid) (kwargs : Kwargs)
    (Tmin Tmax Pmin Pmax : ℚ) : CalcResult :=
  if suppliedOut kwargs.T Tmin Tmax then .none
  else if suppliedOut kwargs.P (Pmin - 1) (Pmax + 1) then .none
  else
    let fluido := fluid.new kwargs
    if fluido.status ≠ 1 ∧ fluido.status ≠ 3 then .none
    else
      let Pmax2 :=
        if getMethod pref = "MEOS" then
          match fluid.melting with
          | some m =>
            if m.Tmin ≤ fluido.T ∧ fluido.T ≤ m.Tmax then
              min Pmax (fluid.meltingPressure fluido.T)
            else Pmax
          | none => Pmax
        else Pmax
      if fluido.P < Pmin - 1 ∨ fluido.P > Pmax2 + 1 ∨
          fluido.T < Tmin ∨ fluido.T > Tmax then .none
      else .state fluido

/-- Embedding of `calcPoint` (lines 5257-5301).  `eqIdx` stands for the
configured equation index `option["eq"]`; the method is decided by
`getMethod` on the preference flags, as in the source.  The `REFPROP`
branch (`pass`, line 5279) leaves the four range variables unassigned,
so any later read of them raises `NameError`. -/
def calcPoint (pref : Prefs) (fluid : Fluid) (eqIdx : Nat)
    (kwargs : Kwargs) : CalcResult :=
  if getMethod pref = "MEOS" then
    calcPointChecked pref fluid kwargs
      (fluid.eqMEoS eqIdx).Tmin (fluid.eqMEoS eqIdx).Tmax
      (fluid.satPmin (fluid.eqMEoS eqIdx).Tmin)
      ((fluid.eqMEoS eqIdx).Pmax * 1000)
  else if getMethod pref = "COOLPROP" then
    calcPointChecked pref fluid kwargs
      fluid.eqCool.Tmin fluid.eqCool.Tmax
      fluid.eqCool.Pmin fluid.eqCool.Pmax
  else
    -- REFPROP: the first read of `Tmin` (supplied `T`), `Pmin`
    -- (supplied `P`) or the final range check raises `NameError`;
    -- only the status check can still return `None` before that
    if kwargs.T.isSome then .nameError
    else if kwargs.P.isSome then .nameError
    else
      let fluido := fluid.new kwargs
      if fluido.status ≠ 1 ∧ fluido.status ≠ 3 then .none
      else .nameError

/-! Spec-side vocabulary for claim C1, written from the claim's words:
the four rejection conditions, phrased over the method's range limits. -/

/-- The `[Tmin, Tmax, Pmin, Pmax]` limits of the selected method, when
that method assigns them. -/
def methodLimits (pref : Prefs) (fluid : Fluid) (eqIdx : Nat) :
    Option (ℚ × ℚ × ℚ × ℚ) :=
  if getMethod pref = "MEOS" then
    some ((fluid.eqMEoS eqIdx).Tmin, (fluid.eqMEoS eqIdx).Tmax,
          fluid.satPmin (fluid.eqMEoS eqIdx).Tmin,
          (fluid.eqMEoS eqIdx).Pmax * 1000)
  else if getMethod pref = "COOLPROP" then
    some (fluid.eqCool.Tmin, fluid.eqCool.Tmax,
          fluid.eqCool.Pmin, fluid.eqCool.Pmax)
  else none

/-- The melting-pressure-capped upper pressure limit used for the final
range check on the computed state: under `MEOS`, when the computed
temperature lies in the melting correlation's range, `Pmax` is capped
by the melting pressure at that temperature. -/
def cappedPmax (pref : Prefs) (fluid : Fluid) (Pmax : ℚ)
    (fluido : FluidState) : ℚ :=
  if getMethod pref = "MEOS" then
    match fluid.melting with
    | some m =>
      if m.Tmin ≤ fluido.T ∧ fluido.T ≤ m.Tmax then
        min Pmax (fluid.meltingPressure fluido.T)
      else Pmax
    | none => Pmax
  else Pmax

/-- The rejection condition of claim C1, over given limits: a supplied
`T` outside `[Tmin, Tmax]`, a supplied `P` outside `[Pmin-1, Pmax+1]`,
a computed status other than 1 or 3, or a computed `T`/`P` outside the
(possibly melting-pressure-capped) limits. -/
def rejectCondition (pref : Prefs) (fluid : Fluid) (kwargs : Kwargs)
    (Tmin Tmax Pmin Pmax : ℚ) : Prop :=
  (∃ t, kwargs.T = some t ∧ (t < Tmin ∨ t > Tmax)) ∨
  (∃ p, kwargs.P = some p ∧ (p < Pmin - 1 ∨ p > Pmax + 1)) ∨
  ((fluid.new kwargs).status ≠ 1 ∧ (fluid.new kwargs).status ≠ 3) ∨
  ((fluid.new kwargs).P < Pmin - 1 ∨
   (fluid.new kwargs).P > cappedPmax pref fluid Pmax (fluid.new kwargs) + 1 ∨
   (fluid.new kwargs).T < Tmin ∨ (fluid.new kwargs).T > Tmax)

/-- A concrete fluid for evaluating `calcPoint`: equation range
`[0, 1000]` K with `Pmax` 100 kPa (so 100000 after the `*1000`),
saturation pressure 0 at `Tmin`, no melting or sublimation correlation,
and a state constructor that always succeeds with status 1 at
`T = 300`, `P = 100`. -/
def exFluidC1 : Fluid where
  eqMEoS := fun _ => ⟨0, 1000, 100⟩
  eqCool := ⟨0, 1000, 0, 100000⟩
  satPmin := fun _ => 0
  melting := none
  meltingPressure := fun _ => 0
  sublimation := none
  sublimationPressure := fun _ => 0
  new := fun _ => ⟨1, "", 300, 100, 10⟩

/-- Concrete keyword inputs `T = 300`, `P = 100`, both well inside the
ranges of `exFluidC1`. -/
def exKwargsC1 : Kwargs := ⟨some 300, some 100, []⟩

/-! ## Melting and sublimation lines of `plugin.calculatePlot`
(lines 610-675) -/

/-- Embedding of numpy's `linspace(start, stop, num)` over `ℚ`: `num`
evenly spaced samples from `start` to `stop`, endpoints included. -/
def linspace (start stop : ℚ) (num : Nat) : List ℚ :=
  if num = 0 then []
  else if num = 1 then [start]
  else (List.range num).map
    fun i : Nat => start + (stop - start) * (i : ℚ) / ((num : ℚ) - 1)

/-- The state kept by the `if fluido: fluidos.append(fluido)` filter:
`some` exactly when `calcPoint` accepted the point. -/
def toAcceptedState : CalcResult → Option FluidState
  | .state f => some f
  | _ => none

/-- Embedding of the melting-line computation of `calculatePlot`
(lines 617-646): under the `MEOS` method, when the fluid has a melting
correlation, sample `points` temperatures linearly spaced on the
correlation's range, evaluate the external melting-pressure function at
each, and keep the points accepted by `calcPoint`; `none` models the
absence of the `"melting"` entry in the data dict (no correlation,
another method, or no accepted point). -/
def calculateMelting (pref : Prefs) (fluid : Fluid) (eqIdx : Nat)
    (points : Nat) : Option (List FluidState) :=
  if getMethod pref = "MEOS" then
    match fluid.melting with
    | some m =>
      let fluidos := (linspace m.Tmin m.Tmax points).filterMap fun Ti =>
        toAcceptedState (calcPoint pref fluid eqIdx
          ⟨some Ti, some (fluid.meltingPressure Ti), []⟩)
      if fluidos.isEmpty then none else some fluidos
    | none => none
  else none

/-- Embedding of the sublimation-line computation of `calculatePlot`
(lines 648-675), symmetric to the melting line. -/
def calculateSublimation (pref : Prefs) (fluid : Fluid) (eqIdx : Nat)
    (points : Nat) : Option (List FluidState) :=
  if getMethod pref = "MEOS" then
    match fluid.sublimation with
    | some m =>
      let fluidos := (linspace m.Tmin m.Tmax points).filterMap fun Ti =>
        toAcceptedState (calcPoint pref fluid eqIdx
          ⟨some Ti, some (fluid.sublimationPressure Ti), []⟩)
      if fluidos.isEmpty then none else some fluidos
    | none => none
  else none

/-- A concrete fluid with a melting correlation on `[100, 200]` K whose
every sampled point is accepted by `calcPoint`. -/
def exFluidC6 : Fluid where
  eqMEoS := fun _ => ⟨0, 1000, 100⟩
  eqCool := ⟨0, 1000, 0, 100000⟩
  satPmin := fun _ => 0
  melting := some ⟨100, 200⟩
  meltingPressure := fun t => t
  sublimation := none
  sublimationPressure := fun _ => 0
  new := fun _ => ⟨1, "", 150, 100, 10⟩

/-! ## Plot data persistence: the cache filename of `plugin.plot`
(line 527) and `PlotMEoS._getData` / `_saveData` (lines 3788-3808) -/

/-- The cache filename built by `plugin.plot`:
`"%s-%s.pkl" % (method, fluid.name)`. -/
def plotFilename (method fluidName : String) : String :=
  method ++ "-" ++ fluidName ++ ".pkl"

/-- The two file stores consulted by `PlotMEoS._getData`: the files of
the user's configuration directory (`filenameSoft = conf_dir +
filename`) and the bundled gzipped data files (`filenameHard`, under
the installation's `dat/mEoS` directory).  The pickle encoding
round-trips any value and is modelled as the identity on the stored
data. -/
structure FileSystem (α : Type) where
  conf : String → Option α
  hard : String → Option α

/-- Embedding of `PlotMEoS._saveData` (lines 3805-3808): pickle the
data dict to `conf_dir + filename`. -/
def PlotMEoS.saveData {α : Type} (fs : FileSystem α) (filename : String)
    (data : α) : FileSystem α :=
  { fs with conf := fun f => if f = filename then some data else fs.conf f }

/-- Embedding of `PlotMEoS._getData` (lines 3788-3803): prefer the
config-directory copy; otherwise unpickle the bundled gzip copy and
re-save it to the config directory; otherwise return `None` (the
implicit Python return).  The second component is the resulting file
system. -/
def PlotMEoS.getData {α : Type} (fs : FileSystem α) (filename : String) :
    Option α × FileSystem α :=
  match fs.conf filename with
  | some data => (some data, fs)
  | none =>
    match fs.hard filename with
    | some data => (some data, PlotMEoS.saveData fs filename data)
    | none => (none, fs)

/-- A concrete file system over `Nat` blobs: one pickled blob in the
config directory and one bundled gzip blob. -/
def exFS : FileSystem Nat where
  conf := fun f => if f = "MEOS-H2O.pkl" then some 1 else none
  hard := fun f => if f = "COOLPROP-H2O.pkl" then some 2 else none

/-! ## The melting/sublimation block of `plot2D3D` (lines 5178-5197) -/

/-- The sections of the plot data dict consulted by the phase-change
block of `plot2D3D`: each present section maps a property key to its
coordinate array. -/
structure PlotData where
  melting : Option (String → List ℚ)
  sublimation : Option (String → List ℚ)

/-- One line drawn on the axes: label, x/y coordinate lists and, in 3D,
the z coordinate list. -/
structure PlottedLine where
  label : String
  xs : List ℚ
  ys : List ℚ
  zs : Option (List ℚ)
  deriving DecidableEq, Repr

/-- Embedding of the melting/sublimation block of `plot2D3D`
(lines 5178-5197): axis keys `x`, `y`, optional 3D key `z`, and the
unit-transform functions `fx`, `fy`, `fz`.  The `.error` case models
the `KeyError` raised by the 3D sublimation branch when the data has no
melting entry: lines 5194-5195 read `data["melting"][z]` and the
melting block's `xmel`, `ymel` instead of the sublimation arrays. -/
def plotPhaseChangeLines (data : PlotData) (fx fy fz : ℚ → ℚ)
    (x y : String) (z : Option String) :
    Except String (List PlottedLine) :=
  let meltLines : List PlottedLine :=
    match data.melting, z with
    | some mel, some zk =>
      [⟨"Melting Line", (mel x).map fx, (mel y).map fy,
        some ((mel zk).map fz)⟩]
    | some mel, none =>
      [⟨"Melting Line", (mel x).map fx, (mel y).map fy, none⟩]
    | none, _ => []
  match data.sublimation with
  | none => .ok meltLines
  | some sub =>
    match z with
    | none =>
      .ok (meltLines ++
        [⟨"Sublimation Line", (sub x).map fx, (sub y).map fy, none⟩])
    | some zk =>
      -- lines 5193-5195: the 3D branch replots `xmel, ymel, zmel`
      match data.melting with
      | some mel =>
        .ok (meltLines ++
          [⟨"Sublimation Line", (mel x).map fx, (mel y).map fy,
            some ((mel zk).map fz)⟩])
      | none => .error "KeyError: melting"

/-- A concrete melting section with distinct coordinates per key. -/
def exMelSection : String → List ℚ := fun key =>
  if key = "T" then [1, 2] else if key = "P" then [3, 4] else [5, 6]

/-- A concrete sublimation section, disjoint from `exMelSection`. -/
def exSubSection : String → List ℚ := fun key =>
  if key = "T" then [10, 20] else if key = "P" then [30, 40] else [50, 60]

/-- Plot data holding both a melting and a sublimation entry. -/
def exPlotDataC4 : PlotData := ⟨some exMelSection, some exSubSection⟩

/-! ## `AddPoint.update` (lines 3619-3631) and `AddPoint.reset`
(lines 3646-3654) -/

/-- The external fluid object as seen by the AddPoint dialog: the
(status, msg) pair reflected into the Status widget. -/
structure FluidObj where
  status : Int
  msg : String
  deriving DecidableEq, Repr

/-- Operations performed by the dialog on its widgets, in execution
order: the transient `status.setState(4)`, the `fill` of the property
inputs, and a `status.setState(status, msg)`. -/
inductive WidgetOp where
  | setStateTransient
  | fill
  | setState (status : Int) (msg : String)
  deriving DecidableEq, Repr

/-- Dialog state: the current fluid, whether the fluid is an `mEoS`
instance with a melting correlation (so the Melting Point radio
exists), and whether that radio is checked. -/
structure AddPointState where
  fluid : FluidObj
  hasMelting : Bool
  meltingChecked : Bool
  deriving DecidableEq, Repr

/-- The recomputation step of `AddPoint.update` (lines 3623-3628):
`call` is the external `self.fluid(**kwargs)` (its last argument the
optional melting pressure passed alongside a `T` input) and `meltingP`
the external `_Melting_Pressure` correlation. -/
def AddPoint.recompute (call : String → ℚ → Option ℚ → FluidObj)
    (meltingP : ℚ → ℚ) (self : AddPointState) (key : String)
    (value : ℚ) : FluidObj :=
  if self.hasMelting && self.meltingChecked && (key == "T") then
    call key value (some (meltingP value))
  else call key value none

/-- Embedding of `AddPoint.update` (lines 3619-3631): set the Status
widget to the transient state 4, recompute the fluid, fill the
property inputs when the resulting status is 1 or 3, and set the
Status widget to the fluid's (status, msg).  Returns the new dialog
state and the widget operations performed, in order. -/
def AddPoint.update (call : String → ℚ → Option ℚ → FluidObj)
    (meltingP : ℚ → ℚ) (self : AddPointState) (key : String)
    (value : ℚ) : AddPointState × List WidgetOp :=
  let fluid' := AddPoint.recompute call meltingP self key value
  ({ self with fluid := fluid' },
   WidgetOp.setStateTransient ::
     ((if fluid'.status = 1 ∨ fluid'.status = 3 then [WidgetOp.fill]
       else []) ++
      [WidgetOp.setState fluid'.status fluid'.msg]))

/-- Embedding of `AddPoint.reset` (lines 3646-3654): replace the fluid
by a fresh instance of its class and set the Status widget to that
fresh (status, msg) pair (the input clearing does not touch the Status
widget). -/
def AddPoint.reset (freshFluid : FluidObj) (self : AddPointState) :
    AddPointState × List WidgetOp :=
  ({ self with fluid := freshFluid },
   [WidgetOp.setState freshFluid.status freshFluid.msg])

/-! ## `TablaMEoS.writeToJSON` / `readFromJSON` (lines 3184-3266)

The Qt widget state touched by the two methods is modelled as a record:
column count, window title, horizontal header texts, unit classes (as
identifiers, with `unidades._all` a list of such identifiers and
`Dimensionless` appended to it, as in the source), the read-only flag,
property keys, per-column read-only flags, unit order, the numeric
format dicts (opaque identifiers) and the cell data.  The `Tabla` base
widget lives outside this module; its kwarg handling is
`Modelled from the spec:` each constructor kwarg is stored as the
corresponding widget state, and a table built without the `readOnly`
kwarg is editable.  Appending `Dimensionless` mutates the module-level
list in Python, but appending at the end changes neither `.index` of
existing entries nor lookups at previously saved indices, so a fresh
`unidadesAll ++ [dimensionless]` per call is behaviourally equal. -/

/-- The fluid instance attached to an editable table: an `mEoS`
subclass (identified by its index in `mEoS.__all__`) or a
CoolProp/RefProp wrapper (identified by `kwargs["ids"][0]`). -/
inductive FluidPoint where
  | meos (index : Nat)
  | coolprop (id : Nat)
  | refprop (id : Nat)
  deriving DecidableEq, Repr

/-- The `TablaMEoS` widget state consulted and restored by
`writeToJSON` / `readFromJSON`. -/
structure TablaMEoS where
  column : Nat
  title : String
  htitle : List String
  units : List Nat
  readOnly : Bool
  keys : List String
  columnReadOnly : List Bool
  orderUnit : List Nat
  format : List Nat
  data : List (List ℚ)
  Point : Option FluidPoint
  deriving DecidableEq, Repr

/-- The dict written by `writeToJSON`; `method`, `fluid`,
`external_dependences`, `keys` and `columnReadOnly` are present only
for editable tables. -/
structure JSONData where
  column : Nat
  title : String
  htitle : List String
  unit : List Nat
  readOnly : Bool
  method : Option String
  fluid : Option Nat
  external_dependences : Option String
  keys : Option (List String)
  columnReadOnly : Option (List Bool)
  orderUnit : List Nat
  format : List Nat
  data : List (List ℚ)
  deriving DecidableEq, Repr

/-- Embedding of `TablaMEoS.writeToJSON` (lines 3184-3225).  `none`
models the `AttributeError` on an editable table without a `Point`
attribute.  Unit classes are saved as indices into
`unidades._all + [Dimensionless]`. -/
def writeToJSON (unidadesAll : List Nat) (dimensionless : Nat)
    (t : TablaMEoS) : Option JSONData :=
  let all := unidadesAll ++ [dimensionless]
  let htitle := (List.range t.column).map (fun c => t.htitle.getD c "")
  let unit := t.units.map (fun u => all.indexOf u)
  if t.readOnly then
    some ⟨t.column, t.title, htitle, unit, true, none, none, none,
          none, none, t.orderUnit, t.format, t.data⟩
  else
    match t.Point with
    | none => none
    | some (.meos i) =>
      some ⟨t.column, t.title, htitle, unit, false, some "meos", some i,
            some "", some t.keys, some t.columnReadOnly, t.orderUnit,
            t.format, t.data⟩
    | some (.coolprop i) =>
      some ⟨t.column, t.title, htitle, unit, false, some "coolprop",
            some i, some "CoolProp", some t.keys, some t.columnReadOnly,
            t.orderUnit, t.format, t.data⟩
    | some (.refprop i) =>
      some ⟨t.column, t.title, htitle, unit, false, some "refprop",
            some i, some "refprop", some t.keys, some t.columnReadOnly,
            t.orderUnit, t.format, t.data⟩

/-- Embedding of `TablaMEoS.readFromJSON` (lines 3227-3266): rebuild
the table from the saved dict; editable tables get a fresh fluid
instance of the saved method and fluid identifier. -/
def readFromJSON (unidadesAll : List Nat) (dimensionless : Nat)
    (d : JSONData) : TablaMEoS :=
  let all := unidadesAll ++ [dimensionless]
  let units := d.unit.map (fun i => all.getD i 0)
  if d.readOnly then
    { column := d.column, title := d.title, htitle := d.htitle,
      units := units, readOnly := true, keys := [], columnReadOnly := [],
      orderUnit := d.orderUnit, format := d.format, data := d.data,
      Point := none }
  else
    { column := d.column, title := d.title, htitle := d.htitle,
      units := units, readOnly := false, keys := d.keys.getD [],
      columnReadOnly := d.columnReadOnly.getD [],
      orderUnit := d.orderUnit, format := d.format, data := d.data,
      Point :=
        if d.method = some "meos" then d.fluid.map FluidPoint.meos
        else if d.method = some "coolprop" then
          d.fluid.map FluidPoint.coolprop
        else if d.method = some "refprop" then
          d.fluid.map FluidPoint.refprop
        else none }

/-- A concrete editable table over the unit list `[10, 20]` with
`Dimensionless = 99`. -/
def exTablaC3 : TablaMEoS where
  column := 2
  title := "Table"
  htitle := ["A", "B"]
  units := [10, 99]
  readOnly := false
  keys := ["T", "P"]
  columnReadOnly := [true, false]
  orderUnit := [0, 1]
  format := [1, 1]
  data := [[1, 2], [3, 4]]
  Point := some (.meos 5)

/-- The dict written for `exTablaC3`. -/
def exJSONC3 : JSONData where
  column := 2
  title := "Table"
  htitle := ["A", "B"]
  unit := [0, 2]
  readOnly := false
  method := some "meos"
  fluid := some 5
  external_dependences := some ""
  keys := some ["T", "P"]
  columnReadOnly := some [true, false]
  orderUnit := [0, 1]
  format := [1, 1]
  data := [[1, 2], [3, 4]]

/-! ## Theorems -/

/-- Helper: `get_propiedades` computes the three component lists of the
selected entries. -/
theorem get_propiedades_eq_selected (props : List PropertyEntry) :
    ∀ (order : List Nat) (booleanos : List Bool),
    get_propiedades props order booleanos =
      ((selectedEntries props order booleanos).map PropertyEntry.name,
       (selectedEntries props order booleanos).map PropertyEntry.key,
       (selectedEntries props order booleanos).map PropertyEntry.unit) := by
  intro order
  induction order with
  | nil =>
    intro booleanos
    cases booleanos <;> rfl
  | cons indice order ih =>
    intro booleanos
    cases booleanos with
    | nil => rfl
    | cons b booleanos =>
      have hsel : selectedEntries props (indice :: order) (b :: booleanos) =
          if b then props.getD indice default ::
            selectedEntries props order booleanos
          else selectedEntries props order booleanos := by
        cases b <;> simp [selectedEntries, List.zip, List.zip_cons_cons,
          List.filter]
      cases b with
      | false => simpa [get_propiedades, hsel] using ih booleanos
      | true => simp [get_propiedades, hsel, ih booleanos]

/-- Claim C9: `getMethod` and `getClassFluid` are consistent and the
`refprop` preference alone is ignored: the method is `"REFPROP"` iff
both flags are set (and the fluid instance is then a `RefProp`),
`"COOLPROP"` iff only `coolprop` is set (a `CoolProp` instance), and
`"MEOS"` otherwise (an `mEoS` subclass instance); in particular
`refprop = true` with `coolprop = false` yields `"MEOS"`. -/
theorem getMethod_getClassFluid_consistent (pref : Prefs) (mEoSId : Nat → Nat)
    (fluidIndex : Nat) :
    (getMethod pref = "REFPROP" ↔
      pref.coolprop = true ∧ pref.refprop = true) ∧
    (getMethod pref = "COOLPROP" ↔
      pref.coolprop = true ∧ pref.refprop = false) ∧
    (getMethod pref = "MEOS" ↔ pref.coolprop = false) ∧
    (getClassFluid pref mEoSId fluidIndex = .refprop (mEoSId fluidIndex) ↔
      getMethod pref = "REFPROP") ∧
    (getClassFluid pref mEoSId fluidIndex = .coolprop (mEoSId fluidIndex) ↔
      getMethod pref = "COOLPROP") ∧
    (getClassFluid pref mEoSId fluidIndex = .meos fluidIndex ↔
      getMethod pref = "MEOS") ∧
    getMethod ⟨false, true⟩ = "MEOS" ∧
    getClassFluid ⟨false, true⟩ mEoSId fluidIndex = .meos fluidIndex := by
  obtain ⟨c, r⟩ := pref
  cases c <;> cases r <;> simp [getMethod, getClassFluid]

/-- Claim C10: `get_points` returns 10, 25, 50 or 100 when the
`definition` preference is 1, 2, 3 or 4, returns 5 for every other
integer, and its result is always one of 5, 10, 25, 50, 100. -/
theorem get_points_values :
    get_points 1 = 10 ∧ get_points 2 = 25 ∧ get_points 3 = 50 ∧
    get_points 4 = 100 ∧
    (∀ d : Int, d ≠ 1 → d ≠ 2 → d ≠ 3 → d ≠ 4 → get_points d = 5) ∧
    (∀ d : Int, get_points d ∈ [5, 10, 25, 50, 100]) := by
  refine ⟨rfl, rfl, rfl, rfl, ?_, ?_⟩
  · intro d h1 h2 h3 h4
    simp [get_points, h1, h2, h3, h4]
  · intro d
    unfold get_points
    split
    · simp
    · split
      · simp
      · split
        · simp
        · split <;> simp

/-- Witness for C10 at the concrete preference value 7. -/
theorem get_points_values_witness :
    get_points 7 = 5 ∧ get_points 7 ∈ [5, 10, 25, 50, 100] :=
  ⟨get_points_values.2.2.2.2.1 7 (by decide) (by decide) (by decide)
    (by decide),
   get_points_values.2.2.2.2.2 7⟩

/-- Claim C7: `get_propiedades` returns three lists of equal length
holding, in the order of the `propertiesOrder` index list, exactly the
names, keys and units of the `ThermoAdvanced.properties()` entries at
those indices whose positionally paired flag in the `properties`
boolean list is true. -/
theorem get_propiedades_spec (props : List PropertyEntry) (order : List Nat)
    (booleanos : List Bool) :
    (get_propiedades props order booleanos).1.length =
      (get_propiedades props order booleanos).2.1.length ∧
    (get_propiedades props order booleanos).2.1.length =
      (get_propiedades props order booleanos).2.2.length ∧
    (get_propiedades props order booleanos).1 =
      (selectedEntries props order booleanos).map PropertyEntry.name ∧
    (get_propiedades props order booleanos).2.1 =
      (selectedEntries props order booleanos).map PropertyEntry.key ∧
    (get_propiedades props order booleanos).2.2 =
      (selectedEntries props order booleanos).map PropertyEntry.unit := by
  have h := get_propiedades_eq_selected props order booleanos
  simp [h]

/-- Helper: `suppliedOut` is true exactly when a value was supplied and
lies outside the closed interval. -/
theorem suppliedOut_iff (v : Option ℚ) (lo hi : ℚ) :
    suppliedOut v lo hi = true ↔ ∃ t, v = some t ∧ (t < lo ∨ t > hi) := by
  cases v <;> simp [suppliedOut]

/-- Helper: full characterization of the common checked path of
`calcPoint`: it returns `None` exactly under the rejection condition,
otherwise the constructed state, and never raises. -/
theorem calcPointChecked_spec (pref : Prefs) (fluid : Fluid)
    (kwargs : Kwargs) (Tmin Tmax Pmin Pmax : ℚ) :
    (calcPointChecked pref fluid kwargs Tmin Tmax Pmin Pmax = .none ↔
      rejectCondition pref fluid kwargs Tmin Tmax Pmin Pmax) ∧
    (¬rejectCondition pref fluid kwargs Tmin Tmax Pmin Pmax →
      calcPointChecked pref fluid kwargs Tmin Tmax Pmin Pmax =
        .state (fluid.new kwargs)) ∧
    calcPointChecked pref fluid kwargs Tmin Tmax Pmin Pmax ≠
      .nameError := by
  have hcap : (if getMethod pref = "MEOS" then
        match fluid.melting with
        | some m =>
          if m.Tmin ≤ (fluid.new kwargs).T ∧
              (fluid.new kwargs).T ≤ m.Tmax then
            min Pmax (fluid.meltingPressure (fluid.new kwargs).T)
          else Pmax
        | none => Pmax
      else Pmax) = cappedPmax pref fluid Pmax (fluid.new kwargs) := rfl
  by_cases h1 : suppliedOut kwargs.T Tmin Tmax = true <;>
    by_cases h2 : suppliedOut kwargs.P (Pmin - 1) (Pmax + 1) = true <;>
    by_cases h3 : (fluid.new kwargs).status ≠ 1 ∧
      (fluid.new kwargs).status ≠ 3 <;>
    by_cases h4 : ((fluid.new kwargs).P < Pmin - 1 ∨
      (fluid.new kwargs).P > cappedPmax pref fluid Pmax (fluid.new kwargs)
        + 1 ∨
      (fluid.new kwargs).T < Tmin ∨ (fluid.new kwargs).T > Tmax) <;>
    simp [calcPointChecked, rejectCondition, hcap, h1, h2, h3, h4,
      ← suppliedOut_iff] <;>
    simp [suppliedOut_iff] at h1 h2 <;>
    tauto

/-- Claim C1, amended: for every fluid and keyword input set, when the
selected method assigns the range limits (`MEOS` or `COOLPROP`),
`calcPoint` returns `None` exactly when a supplied `T` lies outside
`[Tmin, Tmax]`, a supplied `P` lies outside `[Pmin-1, Pmax+1]`, the
computed status is not 1 or 3, or the computed state's `T` or `P`
falls outside the (possibly melting-pressure-capped) limits; in every
other case it returns the state object built by the external
constructor, and it never raises.  (Under `REFPROP` the limits are
never assigned and `calcPoint` instead raises `NameError`, see the
counterexample.) -/
theorem calcPoint_spec (pref : Prefs) (fluid : Fluid) (eqIdx : Nat)
    (kwargs : Kwargs) (Tmin Tmax Pmin Pmax : ℚ)
    (hlim : methodLimits pref fluid eqIdx = some (Tmin, Tmax, Pmin, Pmax)) :
    (calcPoint pref fluid eqIdx kwargs = .none ↔
      rejectCondition pref fluid kwargs Tmin Tmax Pmin Pmax) ∧
    (¬rejectCondition pref fluid kwargs Tmin Tmax Pmin Pmax →
      calcPoint pref fluid eqIdx kwargs = .state (fluid.new kwargs)) ∧
    calcPoint pref fluid eqIdx kwargs ≠ .nameError := by
  unfold methodLimits at hlim
  unfold calcPoint
  by_cases hM : getMethod pref = "MEOS"
  · rw [if_pos hM] at hlim
    simp only [Option.some.injEq, Prod.mk.injEq] at hlim
    obtain ⟨rfl, rfl, rfl, rfl⟩ := hlim
    rw [if_pos hM]
    exact calcPointChecked_spec pref fluid kwargs _ _ _ _
  · rw [if_neg hM] at hlim
    rw [if_neg hM]
    by_cases hC : getMethod pref = "COOLPROP"
    · rw [if_pos hC] at hlim
      simp only [Option.some.injEq, Prod.mk.injEq] at hlim
      obtain ⟨rfl, rfl, rfl, rfl⟩ := hlim
      rw [if_pos hC]
      exact calcPointChecked_spec pref fluid kwargs _ _ _ _
    · rw [if_neg hC] at hlim
      exact absurd hlim (by simp)

/-- Witness for the amended claim C1: at the concrete `MEOS`
preferences, fluid `exFluidC1` and inputs `T = 300`, `P = 100`, the
rejection condition fails and `calcPoint` returns the constructed
state. -/
theorem calcPoint_spec_witness :
    methodLimits ⟨false, false⟩ exFluidC1 0 = some (0, 1000, 0, 100000) ∧
    ¬rejectCondition ⟨false, false⟩ exFluidC1 exKwargsC1 0 1000 0 100000 ∧
    calcPoint ⟨false, false⟩ exFluidC1 0 exKwargsC1 =
      .state (exFluidC1.new exKwargsC1) := by
  have hml : methodLimits ⟨false, false⟩ exFluidC1 0 =
      some (0, 1000, 0, 100000) := by
    simp [methodLimits, exFluidC1, getMethod]
    norm_num
  have hnr : ¬rejectCondition ⟨false, false⟩ exFluidC1 exKwargsC1
      0 1000 0 100000 := by
    simp [rejectCondition, exFluidC1, exKwargsC1, cappedPmax, getMethod]
    norm_num
  exact ⟨hml, hnr,
    (calcPoint_spec ⟨false, false⟩ exFluidC1 0 exKwargsC1 0 1000 0 100000
      hml).2.1 hnr⟩

/-- Counterexample to claim C1 as stated: under the `REFPROP` method
(both preference flags set), with supplied `T = 300` and `P = 100` and
a state constructor that succeeds with status 1, `calcPoint` neither
returns `None` nor the constructed state object: the `REFPROP` branch
(`pass`) never assigns the range limits, so the first range check
raises `NameError`. -/
theorem calcPoint_refprop_counterexample :
    getMethod ⟨true, true⟩ = "REFPROP" ∧
    (exFluidC1.new exKwargsC1).status = 1 ∧
    calcPoint ⟨true, true⟩ exFluidC1 0 exKwargsC1 = .nameError ∧
    calcPoint ⟨true, true⟩ exFluidC1 0 exKwargsC1 ≠ .none ∧
    ∀ s, calcPoint ⟨true, true⟩ exFluidC1 0 exKwargsC1 ≠ .state s := by
  have h : calcPoint ⟨true, true⟩ exFluidC1 0 exKwargsC1 = .nameError := rfl
  refine ⟨rfl, rfl, h, by simp [h], fun s => by simp [h]⟩

/-- Helper: `linspace` always yields exactly `num` samples. -/
theorem linspace_length (start stop : ℚ) (num : Nat) :
    (linspace start stop num).length = num := by
  unfold linspace
  by_cases h0 : num = 0
  · simp [h0]
  · by_cases h1 : num = 1 <;> simp [h0, h1]

/-- Helper: the `i`-th sample of `linspace` (for `2 ≤ num`). -/
theorem linspace_getD (start stop : ℚ) (num : Nat) (i : Nat)
    (h2 : 2 ≤ num) (hi : i < num) :
    (linspace start stop num).getD i 0 =
      start + (stop - start) * i / ((num : ℚ) - 1) := by
  have h0 : ¬num = 0 := by omega
  have h1 : ¬num = 1 := by omega
  unfold linspace
  rw [if_neg h0, if_neg h1]
  rw [List.getD_eq_getElem?_getD, List.getElem?_map,
    List.getElem?_range hi]
  rfl

/-- Claim C6: when the method is `MEOS` and the fluid has a melting
correlation, `calculatePlot` samples exactly `points` temperatures
linearly spaced between the correlation's `Tmin` and `Tmax` (endpoints
included), evaluates the external melting-pressure function at each
sample, and keeps exactly the points accepted by `calcPoint`; for any
other method neither a melting nor a sublimation line is computed. -/
theorem calculatePlot_melting_spec :
    (∀ (pref : Prefs) (fluid : Fluid) (eqIdx points : Nat),
      getMethod pref ≠ "MEOS" →
        calculateMelting pref fluid eqIdx points = none ∧
        calculateSublimation pref fluid eqIdx points = none) ∧
    (∀ (pref : Prefs) (fluid : Fluid) (eqIdx points : Nat)
      (m : MeltingData), getMethod pref = "MEOS" →
      fluid.melting = some m →
      (linspace m.Tmin m.Tmax points).length = points ∧
      (2 ≤ points →
        (linspace m.Tmin m.Tmax points).getD 0 0 = m.Tmin ∧
        (linspace m.Tmin m.Tmax points).getD (points - 1) 0 = m.Tmax ∧
        ∀ i, i < points →
          (linspace m.Tmin m.Tmax points).getD i 0 =
            m.Tmin + (m.Tmax - m.Tmin) * i / ((points : ℚ) - 1)) ∧
      calculateMelting pref fluid eqIdx points =
        (if ((linspace m.Tmin m.Tmax points).filterMap fun Ti =>
              toAcceptedState (calcPoint pref fluid eqIdx
                ⟨some Ti, some (fluid.meltingPressure Ti), []⟩)).isEmpty
         then none
         else some ((linspace m.Tmin m.Tmax points).filterMap fun Ti =>
            toAcceptedState (calcPoint pref fluid eqIdx
              ⟨some Ti, some (fluid.meltingPressure Ti), []⟩)))) := by
  constructor
  · intro pref fluid eqIdx points hM
    constructor <;> simp [calculateMelting, calculateSublimation, hM]
  · intro pref fluid eqIdx points m hM hm
    refine ⟨linspace_length m.Tmin m.Tmax points, ?_, ?_⟩
    · intro h2
      have hlast : points - 1 < points := by omega
      have hne : ((points : ℚ) - 1) ≠ 0 := by
        have : (2 : ℚ) ≤ (points : ℚ) := by exact_mod_cast h2
        intro h
        nlinarith
      refine ⟨?_, ?_, fun i hi => linspace_getD m.Tmin m.Tmax points i h2 hi⟩
      · rw [linspace_getD m.Tmin m.Tmax points 0 h2 (by omega)]
        simp
      · rw [linspace_getD m.Tmin m.Tmax points (points - 1) h2 hlast]
        have hcast : ((points - 1 : Nat) : ℚ) = (points : ℚ) - 1 := by
          have : 1 ≤ points := by omega
          push_cast [this]
          ring
        rw [hcast, mul_div_assoc, div_self hne]
        ring
    · simp [calculateMelting, hM, hm]

/-- Witness for C6 at concrete inputs: under COOLPROP preferences no
melting line is computed, and under MEOS the melting samples of
`exFluidC6` number exactly 3, span `[100, 200]`, and every accepted
point is kept. -/
theorem calculatePlot_melting_spec_witness :
    calculateMelting ⟨true, false⟩ exFluidC6 0 3 = none ∧
    calculateSublimation ⟨true, false⟩ exFluidC6 0 3 = none ∧
    (linspace (100 : ℚ) 200 3).length = 3 := by
  have hne : getMethod ⟨true, false⟩ ≠ "MEOS" := by decide
  have h1 := calculatePlot_melting_spec.1 ⟨true, false⟩ exFluidC6 0 3 hne
  have h2 := calculatePlot_melting_spec.2 ⟨false, false⟩ exFluidC6 0 3
    ⟨100, 200⟩ rfl rfl
  exact ⟨h1.1, h1.2, h2.1⟩

/-- Claim C2: precomputed isoline data is persisted as one pickled blob
per (method, fluid) pair under the name `"<method>-<fluidname>.pkl"`;
`_saveData` writes to the config directory, and `_getData` after
`_saveData` returns an equal blob, preferring the config-directory copy
over the bundled gzip copy, which, when used, is re-saved to the config
directory. -/
theorem plotData_persistence_spec :
    (∀ (α : Type) (fs : FileSystem α) (method fluidName : String)
      (data : α),
      PlotMEoS.getData
          (PlotMEoS.saveData fs (plotFilename method fluidName) data)
          (plotFilename method fluidName) =
        (some data,
         PlotMEoS.saveData fs (plotFilename method fluidName) data)) ∧
    (∀ (α : Type) (fs : FileSystem α) (filename : String) (d : α),
      fs.conf filename = some d →
      PlotMEoS.getData fs filename = (some d, fs)) ∧
    (∀ (α : Type) (fs : FileSystem α) (filename : String) (d : α),
      fs.conf filename = none → fs.hard filename = some d →
      PlotMEoS.getData fs filename =
        (some d, PlotMEoS.saveData fs filename d)) := by
  refine ⟨?_, ?_, ?_⟩
  · intro α fs method fluidName data
    simp [PlotMEoS.getData, PlotMEoS.saveData]
  · intro α fs filename d h
    simp [PlotMEoS.getData, h]
  · intro α fs filename d hc hh
    simp [PlotMEoS.getData, hc, hh]

/-- Witness for C2 on the concrete store `exFS`: save-then-load
round-trips under the `plugin.plot` filename, the config-directory blob
is preferred, and the bundled blob is used and re-saved when the
config-directory copy is absent. -/
theorem plotData_persistence_spec_witness :
    PlotMEoS.getData (PlotMEoS.saveData exFS (plotFilename "MEOS" "He") 7)
        (plotFilename "MEOS" "He") =
      (some 7, PlotMEoS.saveData exFS (plotFilename "MEOS" "He") 7) ∧
    PlotMEoS.getData exFS "MEOS-H2O.pkl" = (some 1, exFS) ∧
    PlotMEoS.getData exFS "COOLPROP-H2O.pkl" =
      (some 2, PlotMEoS.saveData exFS "COOLPROP-H2O.pkl" 2) :=
  ⟨plotData_persistence_spec.1 Nat exFS "MEOS" "He" 7,
   plotData_persistence_spec.2.1 Nat exFS "MEOS-H2O.pkl" 1 (by decide),
   plotData_persistence_spec.2.2 Nat exFS "COOLPROP-H2O.pkl" 2 (by decide)
     (by decide)⟩

/-- Claim C4 names a code bug: in 2D the sublimation line is drawn from
the sublimation arrays, but in 3D the line labelled "Sublimation Line"
carries the melting coordinates (lines 5193-5195 reuse `xmel`, `ymel`,
`data["melting"][z]`), and when the data has a sublimation entry but no
melting entry the 3D branch raises instead of plotting. -/
theorem plot2D3D_sublimation_bug :
    plotPhaseChangeLines exPlotDataC4 id id id "T" "P" none =
      .ok [⟨"Melting Line", [1, 2], [3, 4], none⟩,
           ⟨"Sublimation Line", [10, 20], [30, 40], none⟩] ∧
    plotPhaseChangeLines exPlotDataC4 id id id "T" "P" (some "h") =
      .ok [⟨"Melting Line", [1, 2], [3, 4], some [5, 6]⟩,
           ⟨"Sublimation Line", [1, 2], [3, 4], some [5, 6]⟩] ∧
    ([1, 2] : List ℚ) ≠ [10, 20] ∧
    plotPhaseChangeLines ⟨none, some exSubSection⟩ id id id "T" "P"
        (some "h") =
      .error "KeyError: melting" :=
  ⟨rfl, rfl, by decide, rfl⟩

/-- Claim C5: each `AddPoint.update` starts by setting the Status
widget to the transient state 4, recomputes the fluid, performs the
`fill` of the property inputs exactly when the resulting status is 1
or 3, and ends by setting the Status widget to exactly the recomputed
fluid's (status, msg); every non-transient state ever set is the
fluid's own pair, and `reset` sets exactly the fresh fluid's
(status, msg). -/
theorem addPoint_status_reflection :
    (∀ (call : String → ℚ → Option ℚ → FluidObj) (meltingP : ℚ → ℚ)
      (self : AddPointState) (key : String) (value : ℚ),
      (AddPoint.update call meltingP self key value).2.head? =
        some WidgetOp.setStateTransient ∧
      (AddPoint.update call meltingP self key value).2.getLast? =
        some (WidgetOp.setState
          (AddPoint.update call meltingP self key value).1.fluid.status
          (AddPoint.update call meltingP self key value).1.fluid.msg) ∧
      (WidgetOp.fill ∈ (AddPoint.update call meltingP self key value).2 ↔
        ((AddPoint.update call meltingP self key value).1.fluid.status = 1 ∨
         (AddPoint.update call meltingP self key value).1.fluid.status =
           3)) ∧
      (∀ (s : Int) (m : String),
        WidgetOp.setState s m ∈
            (AddPoint.update call meltingP self key value).2 →
          s = (AddPoint.update call meltingP self key value).1.fluid.status
            ∧
          m = (AddPoint.update call meltingP self key value).1.fluid.msg))
    ∧
    (∀ (freshFluid : FluidObj) (self : AddPointState),
      (AddPoint.reset freshFluid self).1.fluid = freshFluid ∧
      (AddPoint.reset freshFluid self).2 =
        [WidgetOp.setState freshFluid.status freshFluid.msg]) := by
  constructor
  · intro call meltingP self key value
    unfold AddPoint.update
    by_cases hs :
        (AddPoint.recompute call meltingP self key value).status = 1 ∨
        (AddPoint.recompute call meltingP self key value).status = 3 <;>
      simp [hs] <;> tauto
  · intro freshFluid self
    exact ⟨rfl, rfl⟩

/-- Witness for C5 at concrete inputs: a recomputation yielding status
1 fills the inputs and ends on (1, "ok"); a fresh fluid with status 0
is reflected verbatim by `reset`. -/
theorem addPoint_status_reflection_witness :
    (AddPoint.update (fun _ _ _ => ⟨1, "ok"⟩) (fun _ => 0)
        ⟨⟨0, ""⟩, false, false⟩ "T" 300).2.getLast? =
      some (WidgetOp.setState
        (AddPoint.update (fun _ _ _ => ⟨1, "ok"⟩) (fun _ => 0)
          ⟨⟨0, ""⟩, false, false⟩ "T" 300).1.fluid.status
        (AddPoint.update (fun _ _ _ => ⟨1, "ok"⟩) (fun _ => 0)
          ⟨⟨0, ""⟩, false, false⟩ "T" 300).1.fluid.msg) ∧
    (AddPoint.reset ⟨0, "undefined"⟩ ⟨⟨1, "ok"⟩, true, true⟩).2 =
      [WidgetOp.setState 0 "undefined"] :=
  ⟨(addPoint_status_reflection.1 (fun _ _ _ => ⟨1, "ok"⟩) (fun _ => 0)
      ⟨⟨0, ""⟩, false, false⟩ "T" 300).2.1,
   (addPoint_status_reflection.2 ⟨0, "undefined"⟩
      ⟨⟨1, "ok"⟩, true, true⟩).2⟩

/-- Helper: looking up a saved index (`all[all.index(u)]`) returns the
original unit class. -/
theorem getD_indexOf {α : Type} [DecidableEq α] (l : List α) (u d : α)
    (h : u ∈ l) : l.getD (l.indexOf u) d = u := by
  have hlt : l.indexOf u < l.length := List.indexOf_lt_length.2 h
  rw [List.getD_eq_getElem?_getD, List.getElem?_eq_getElem hlt]
  simp [List.getElem_indexOf]

/-- Helper: reading the header items of the `column` columns
reconstructs the header list. -/
theorem range_map_getD {α : Type} (l : List α) (n : Nat) (d : α)
    (h : l.length = n) :
    (List.range n).map (fun c => l.getD c d) = l := by
  apply List.ext_getElem
  · simp [h]
  · intro i h1 h2
    simp only [List.getElem_map, List.getElem_range]
    rw [List.getD_eq_getElem?_getD, List.getElem?_eq_getElem h2]
    rfl

/-- Claim C3: `writeToJSON` followed by `readFromJSON` round-trips: the
rebuilt table has the same column count, window title, header titles,
unit classes, numeric format, orderUnit, readOnly flag and cell data,
and, for editable tables, the same keys, columnReadOnly flags and a
fresh fluid instance of the same method and fluid identifier. -/
theorem tablaMEoS_json_roundtrip (unidadesAll : List Nat)
    (dimensionless : Nat) (t : TablaMEoS) (d : JSONData)
    (hlen : t.htitle.length = t.column)
    (hunits : ∀ u ∈ t.units, u ∈ unidadesAll ++ [dimensionless])
    (hw : writeToJSON unidadesAll dimensionless t = some d) :
    (readFromJSON unidadesAll dimensionless d).column = t.column ∧
    (readFromJSON unidadesAll dimensionless d).title = t.title ∧
    (readFromJSON unidadesAll dimensionless d).htitle = t.htitle ∧
    (readFromJSON unidadesAll dimensionless d).units = t.units ∧
    (readFromJSON unidadesAll dimensionless d).format = t.format ∧
    (readFromJSON unidadesAll dimensionless d).orderUnit = t.orderUnit ∧
    (readFromJSON unidadesAll dimensionless d).readOnly = t.readOnly ∧
    (readFromJSON unidadesAll dimensionless d).data = t.data ∧
    (t.readOnly = false →
      (readFromJSON unidadesAll dimensionless d).keys = t.keys ∧
      (readFromJSON unidadesAll dimensionless d).columnReadOnly =
        t.columnReadOnly ∧
      (readFromJSON unidadesAll dimensionless d).Point = t.Point) := by
  have hunitsRT :
      (t.units.map
          (fun u => (unidadesAll ++ [dimensionless]).indexOf u)).map
        (fun i => (unidadesAll ++ [dimensionless]).getD i 0) = t.units := by
    rw [List.map_map]
    refine (List.map_congr_left ?_).trans (List.map_id _)
    intro u hu
    exact getD_indexOf (unidadesAll ++ [dimensionless]) u 0 (hunits u hu)
  have hhtitleRT :
      (List.range t.column).map (fun c => t.htitle.getD c "") =
        t.htitle := range_map_getD t.htitle t.column "" hlen
  unfold writeToJSON at hw
  by_cases hro : t.readOnly = true
  · rw [if_pos hro] at hw
    simp only [Option.some.injEq] at hw
    subst hw
    exact ⟨rfl, rfl, hhtitleRT, hunitsRT, rfl, rfl, hro.symm, rfl,
      fun hfalse => absurd hro (by simp [hfalse])⟩
  · rw [if_neg hro] at hw
    cases hp : t.Point with
    | none => rw [hp] at hw; exact absurd hw (by simp)
    | some p =>
      rw [hp] at hw
      have hro' : t.readOnly = false := by
        cases h : t.readOnly
        · rfl
        · exact absurd h hro
      cases p <;>
        · simp only [Option.some.injEq] at hw
          subst hw
          exact ⟨rfl, rfl, hhtitleRT, hunitsRT, rfl, rfl, hro'.symm, rfl,
            fun _ => ⟨rfl, rfl, rfl⟩⟩

/-- Witness for C3 at the concrete editable table `exTablaC3` over the
unit list `[10, 20]` with `Dimensionless = 99`. -/
theorem tablaMEoS_json_roundtrip_witness :
    (readFromJSON [10, 20] 99 exJSONC3).units = [10, 99] ∧
    (readFromJSON [10, 20] 99 exJSONC3).data = [[1, 2], [3, 4]] ∧
    (readFromJSON [10, 20] 99 exJSONC3).Point =
      some (FluidPoint.meos 5) := by
  have h := tablaMEoS_json_roundtrip [10, 20] 99 exTablaC3 exJSONC3
    (by decide) (by decide) (by decide)
  exact ⟨h.2.2.2.1, h.2.2.2.2.2.2.2.1, (h.2.2.2.2.2.2.2.2 rfl).2.2⟩

end UITables
